import Mathlib

/-!
Shallow embedding of the nurse-scheduling repository (ortools_scheduling).

The repository builds CP-SAT models for nurse scheduling.  Two model-building
programs are embedded here:

* `src/index.py` — nurses identified by name, with certification sets and
  availability sets; decision variables are created only for triples passing
  the validity predicate `valid_n_d_s`.
* `src/nurse1.py` — nurses identified by index; decision variables are created
  for every (nurse, day, shift) triple; coverage, certification, predefined
  shifts, fatigue and evening-quota rules are emitted as explicit constraints.

Constraints are embedded as a syntactic datatype (`NC`) together with a
satisfaction function (`ncSat`) over boolean valuations of the variable keys,
so that both the emitted constraint set and the solutions it admits can be
reasoned about.
-/

/- ===================== src/index.py : data ===================== -/

/-- `ALL_NURSES` from src/index.py: name, certification set, days available. -/
def ALL_NURSES : List (String × List String × List Nat) :=
  [("Alice", (["S1", "EVE-S1", "S2"], [0, 1, 4])),
   ("Bobby", (["S1", "EVE-S1", "S2"], [1, 2, 3])),
   ("Cindy", (["S1", "EVE-S1"], [0, 1, 2, 3, 4]))]

/-- `ALL_SHIFT_TYPES` from src/index.py. -/
def ALL_SHIFT_TYPES : List String := ["S1", "EVE-S1", "S2"]

/-- `ALL_DAYS` from src/index.py. -/
def ALL_DAYS : List Nat := [0, 1, 2, 3, 4]

/-- `shift_coverage_days` from src/index.py: the days on which each shift type
needs coverage. -/
def shift_coverage_days (shift_name : String) : List Nat :=
  if shift_name = "S1" then [0, 1, 3, 4]
  else if shift_name = "EVE-S1" then [1, 2, 3]
  else if shift_name = "S2" then [0, 2, 4]
  else []

/-- `valid_n_d_s` from src/index.py (lines 31-44): a (nurse, day, shiftType)
triple is valid iff the shift needs coverage on that day, the nurse is
certified for the shift, and the nurse is available on that day.  The
early-return structure of the Python function is mirrored. -/
def valid_n_d_s (nurse_certs : List String) (nurse_av : List Nat)
    (d : Nat) (shift_name : String) : Bool :=
  if !((shift_coverage_days shift_name).contains d) then false
  else if !(nurse_certs.contains shift_name) then false
  else if !(nurse_av.contains d) then false
  else true

/-- The keys of the `shifts` dictionary built in src/index.py (lines 47-56):
one entry per triple passing `valid_n_d_s`; invalid triples are skipped via
`continue`. -/
def index_shift_keys : List (String × Nat × String) :=
  ALL_NURSES.flatMap fun nr =>
    ALL_DAYS.flatMap fun d =>
      (ALL_SHIFT_TYPES.filter fun s => valid_n_d_s nr.2.1 nr.2.2 d s).map
        fun s => (nr.1, d, s)

/-- For a (day, shiftType) pair, the list of variables of nurses with a valid
triple, in nurse order — the list built in the coverage loop of src/index.py
(lines 61-65). -/
def index_valid_group (d : Nat) (s : String) : List (String × Nat × String) :=
  ALL_NURSES.filterMap fun nr =>
    if valid_n_d_s nr.2.1 nr.2.2 d s then some (nr.1, d, s) else none

/-- The exactly-one groups emitted by src/index.py (lines 58-71): for each
(day, shiftType), the group of valid nurses' variables, emitted only when
non-empty. -/
def index_coverage_constraints : List (List (String × Nat × String)) :=
  ALL_DAYS.flatMap fun d =>
    ALL_SHIFT_TYPES.filterMap fun s =>
      let g := index_valid_group d s
      if g.isEmpty then none else some g

/-- The at-most-one groups emitted by src/index.py (lines 73-86): for each
(nurse, day), the group of valid shift variables, emitted only when
non-empty. -/
def index_amo_constraints : List (List (String × Nat × String)) :=
  ALL_NURSES.flatMap fun nr =>
    ALL_DAYS.filterMap fun d =>
      let g := (ALL_SHIFT_TYPES.filter fun s =>
        valid_n_d_s nr.2.1 nr.2.2 d s).map fun s => (nr.1, d, s)
      if g.isEmpty then none else some g

/-- Satisfaction of the full constraint set of the src/index.py model by a
boolean valuation of the variable keys. -/
def index_model_sat (val : String × Nat × String → Bool) : Bool :=
  (index_coverage_constraints.all fun g => g.countP val == 1) &&
  (index_amo_constraints.all fun g => Nat.ble (g.countP val) 1)

/- ===================== src/nurse1.py : data ===================== -/

/-- `num_nurses` from src/nurse1.py. -/
def num_nurses : Nat := 4
/-- `num_shifts` from src/nurse1.py. -/
def num_shifts : Nat := 3
/-- `num_days` from src/nurse1.py. -/
def num_days : Nat := 3

/-- `all_shift_types` from src/nurse1.py. -/
def all_shift_types : List String := ["GEN", "ICU", "EVE-GEN"]

/-- `all_shift_types[s]` indexing. -/
def shiftTypeOf (s : Nat) : String := all_shift_types.getD s ""

/-- Python's `st.startswith(pre)`, modelled over the character lists of the
two strings. -/
def strStartsWith (st pre : String) : Bool := pre.data.isPrefixOf st.data

/-- `is_evening_for_shift_types` from src/nurse1.py (lines 19-21). -/
def is_evening_for_shift_types : List Bool :=
  all_shift_types.map fun st => strStartsWith st "EVE-"

/-- `coverage_required` from src/nurse1.py (lines 25-38): 1 means the shift
needs to be covered by exactly one nurse on that day, 0 means no coverage. -/
def coverage_required (d s : Nat) : Nat :=
  match d, s with
  | 0, 0 => 1
  | 0, 1 => 0
  | 0, 2 => 1
  | 1, 0 => 0
  | 1, 1 => 1
  | 1, 2 => 0
  | 2, 0 => 1
  | 2, 1 => 1
  | 2, 2 => 1
  | _, _ => 0

/-- `nurse_certifications` from src/nurse1.py (lines 42-47). -/
def nurse_certifications (n : Nat) : List String :=
  match n with
  | 0 => ["GEN", "ICU"]
  | 1 => ["EVE-GEN"]
  | 2 => ["GEN", "EVE-GEN"]
  | 3 => ["ICU"]
  | _ => []

/-- `predefined_shifts` from src/nurse1.py (lines 53-58). -/
def predefined_shifts : List (Nat × Nat × Nat) := [(0, 1, 1), (1, 2, 2)]

/-- `evening_shift_allocation_data` from src/nurse1.py (lines 60-65):
per-nurse (minimum, maximum) evening-shift counts. -/
def evening_shift_allocation_data : List (Nat × Nat) :=
  [(1, 2), (3, 4), (3, 4), (2, 3)]

/-- The keys of the `shifts` dictionary built in src/nurse1.py (lines 72-76):
one boolean variable for every (nurse, day, shift) triple, unconditionally. -/
def nurse1_shift_keys : List (Nat × Nat × Nat) :=
  (List.range num_nurses).flatMap fun n =>
    (List.range num_days).flatMap fun d =>
      (List.range num_shifts).map fun s => (n, d, s)

/- ===================== constraint syntax ===================== -/

/-- Syntactic constraints over boolean variables keyed by (nurse, day, shift),
covering the CP-SAT constraint forms used by src/nurse1.py:
`add_exactly_one`, `add_at_most_one`, `add(sum == k)`, `add(sum >= k)`,
`add(sum <= k)`, and `add(sum == k).only_enforce_if(var)`. -/
inductive NC where
  | exactlyOne (vs : List (Nat × Nat × Nat))
  | atMostOne (vs : List (Nat × Nat × Nat))
  | sumEq (vs : List (Nat × Nat × Nat)) (k : Nat)
  | sumGe (vs : List (Nat × Nat × Nat)) (k : Nat)
  | sumLe (vs : List (Nat × Nat × Nat)) (k : Nat)
  | condSumEq (cond : Nat × Nat × Nat) (vs : List (Nat × Nat × Nat)) (k : Nat)
  deriving DecidableEq, Repr

/-- Whether a valuation of the boolean variables satisfies one constraint. -/
def ncSat (val : Nat × Nat × Nat → Bool) : NC → Bool
  | .exactlyOne vs => vs.countP val == 1
  | .atMostOne vs => Nat.ble (vs.countP val) 1
  | .sumEq vs k => vs.countP val == k
  | .sumGe vs k => Nat.ble k (vs.countP val)
  | .sumLe vs k => Nat.ble (vs.countP val) k
  | .condSumEq c vs k => !(val c) || (vs.countP val == k)

/-- A valuation satisfies a whole emitted model when it satisfies every
constraint in it. -/
def modelSat (val : Nat × Nat × Nat → Bool) (cs : List NC) : Prop :=
  ∀ c ∈ cs, ncSat val c = true

/- ===================== src/nurse1.py : constraint encoder ===================== -/

/-- Coverage constraints of src/nurse1.py (lines 82-91): for each (day, shift),
if coverage is required, exactly one nurse fills it; otherwise the sum of all
nurses' variables for that (day, shift) is constrained to zero. -/
def coverageConstraints : List NC :=
  (List.range num_days).flatMap fun d =>
    (List.range num_shifts).map fun s =>
      if coverage_required d s = 1 then
        .exactlyOne ((List.range num_nurses).map fun n => (n, d, s))
      else
        .sumEq ((List.range num_nurses).map fun n => (n, d, s)) 0

/-- One-shift-per-day constraints of src/nurse1.py (lines 94-96). -/
def oneShiftPerDayConstraints : List NC :=
  (List.range num_nurses).flatMap fun n =>
    (List.range num_days).map fun d =>
      .atMostOne ((List.range num_shifts).map fun s => (n, d, s))

/-- Certification restriction constraints of src/nurse1.py (lines 101-107):
if a shift type is not in a nurse's allowed list, the corresponding variable
is constrained to zero. -/
def certificationConstraints : List NC :=
  (List.range num_nurses).flatMap fun n =>
    (List.range num_days).flatMap fun d =>
      (List.range num_shifts).filterMap fun s =>
        if (nurse_certifications n).contains (shiftTypeOf s) then none
        else some (.sumEq [(n, d, s)] 0)

/-- Predefined-shift encoding of src/nurse1.py (lines 110-115): for each
(nurse, day, shift), first the `assert shift_type in nurse_certifications[n]`,
then the `assert coverage_required[(d, s)]`; a failing assert aborts the run
before the solver is invoked (modelled as `Except.error`); otherwise the
variable is fixed to 1. -/
def predefinedConstraints : List (Nat × Nat × Nat) → Except String (List NC)
  | [] => .ok []
  | (n, d, s) :: rest =>
    if !((nurse_certifications n).contains (shiftTypeOf s)) then
      .error "assert shift_type in nurse_certifications failed"
    else if coverage_required d s = 0 then
      .error "assert coverage_required failed"
    else
      match predefinedConstraints rest with
      | .ok cs => .ok (.sumEq [(n, d, s)] 1 :: cs)
      | .error e => .error e

/-- Fatigue constraints of src/nurse1.py (lines 118-138): for each nurse, each
day but the last, each evening shift type, if tomorrow has non-evening shifts
then conditionally force their sum to zero when the evening shift is worked. -/
def fatigueConstraints : List NC :=
  (List.range num_nurses).flatMap fun n =>
    (List.range (num_days - 1)).flatMap fun d =>
      (List.range num_shifts).filterMap fun s =>
        if strStartsWith (shiftTypeOf s) "EVE-" then
          let tomorrows_day_shifts :=
            (List.range num_shifts).filterMap fun s_next =>
              if strStartsWith (shiftTypeOf s_next) "EVE-" then none
              else some (n, d + 1, s_next)
          if tomorrows_day_shifts.isEmpty then none
          else some (.condSumEq (n, d, s) tomorrows_day_shifts 0)
        else none

/-- Evening-quota constraints of src/nurse1.py (lines 141-158): for each nurse,
`total_evening_shifts` collects all evening-shift variables and its sum is
bounded below by the nurse's minimum; `assigned_evening_shifts` starts empty
and is never appended to, so the `if assigned_evening_shifts:` guard never
fires and the maximum-bound constraint is never emitted. -/
def eveningQuotaConstraints (quota : List (Nat × Nat)) : List NC :=
  (List.range num_nurses).flatMap fun n =>
    let assigned_evening_shifts : List (Nat × Nat × Nat) := []
    let total_evening_shifts :=
      (List.range num_days).flatMap fun d =>
        (List.range num_shifts).filterMap fun s =>
          if is_evening_for_shift_types.getD s false then some (n, d, s)
          else none
    let mn := (quota.getD n (0, 0)).1
    let mx := (quota.getD n (0, 0)).2
    .sumGe total_evening_shifts mn ::
      (if assigned_evening_shifts.isEmpty then []
       else [.sumLe assigned_evening_shifts mx])

/-- The full constraint encoder of src/nurse1.py `main`, parametrized by the
predefined-shift list and the evening-quota data (everything else is the fixed
configuration); constraint groups appear in source order.  An assertion
failure in the predefined-shift section aborts the run before the solver is
invoked. -/
def nurse1_encode (predef : List (Nat × Nat × Nat)) (quota : List (Nat × Nat)) :
    Except String (List NC) :=
  match predefinedConstraints predef with
  | .error e => .error e
  | .ok pcs =>
    .ok (coverageConstraints ++ oneShiftPerDayConstraints ++
      certificationConstraints ++ pcs ++ fatigueConstraints ++
      eveningQuotaConstraints quota)

/-- The constraint set emitted for the fixed configuration of src/nurse1.py. -/
def nurse1_model : List NC :=
  (nurse1_encode predefined_shifts evening_shift_allocation_data).toOption.getD []

/- ===================== src/index.py : solution reporter ===================== -/

/-- The per-(day, nurse) classification computed by
`NursesPartialSolutionPrinter.on_solution_callback` in src/index.py
(lines 111-122).  The inner loop over shift types sets `is_working` when a
valid variable is true; after the loop, the Python code inspects the loop
variable `shift_name`, which at that point holds the LAST element iterated
(the loop never breaks), and prints "does not work" when
`valid_n_d_s(..., shift_name)` holds for that stale value, else
"not available".  The fold carries the pair (is_working, shift_name) to
mirror this exactly; the `""` seed is never the final value because
`ALL_SHIFT_TYPES` is non-empty. -/
def reportClassification (nurse_certs : List String) (nurse_av : List Nat)
    (nurse_name : String) (d : Nat) (val : String × Nat × String → Bool) :
    String :=
  let final := ALL_SHIFT_TYPES.foldl
    (fun acc shift_name =>
      let working :=
        if valid_n_d_s nurse_certs nurse_av d shift_name then
          (acc.1 || val (nurse_name, d, shift_name))
        else acc.1
      (working, shift_name))
    (false, "")
  if final.1 then "works"
  else if valid_n_d_s nurse_certs nurse_av d final.2 then "does not work"
  else "not available"

/-- A concrete full solution of the src/index.py model, used to evaluate the
reporter on a reachable callback: the valuation setting exactly these
variables true. -/
def exampleVal : String × Nat × String → Bool := fun t =>
  [("Cindy", 0, "S1"), ("Alice", 0, "S2"), ("Bobby", 1, "S1"),
   ("Cindy", 1, "EVE-S1"), ("Cindy", 2, "EVE-S1"), ("Bobby", 2, "S2"),
   ("Bobby", 3, "S1"), ("Cindy", 3, "EVE-S1"), ("Cindy", 4, "S1"),
   ("Alice", 4, "S2")].contains t

/- ===================== solution observer / enumeration ===================== -/

/-- The mutable state of `NursesPartialSolutionPrinter` (both
src/index.py lines 94-128 and src/nurse1.py lines 184-214): the solution
counter together with whether `stop_search` has been requested. -/
structure PrinterState where
  count : Nat
  stopped : Bool
  deriving Repr, DecidableEq

/-- One `on_solution_callback` invocation: the counter is incremented by one,
and when the new count reaches the configured limit, `stop_search` is
requested (src/index.py lines 107, 123-125; src/nurse1.py lines 197,
209-211). -/
def callbackStep (limit : Nat) (st : PrinterState) : PrinterState :=
  let c := st.count + 1
  { count := c, stopped := decide (limit ≤ c) }

/-- Engine-side enumeration loop, following the spec's contract for the
external search engine: it delivers one callback per remaining solution,
checking the observer's stop flag between solutions (cooperative
cancellation), and returns the final number of callbacks delivered.
`fuel` is the number of solutions the engine still has available. -/
def enumerate (limit : Nat) : Nat → PrinterState → Nat
  | 0, st => st.count
  | fuel + 1, st =>
    if st.stopped then st.count
    else enumerate limit fuel (callbackStep limit st)

/-- Number of solutions reported when the engine has `solutions` solutions
available and the observer is configured with cap `limit`. -/
def runEnumeration (limit solutions : Nat) : Nat :=
  enumerate limit solutions { count := 0, stopped := false }

/-- Shape test: does a constraint impose an upper bound (`add(sum <= k)`)? -/
def NC.isUpperBound : NC → Bool
  | .sumLe _ _ => true
  | _ => false

/-- A valuation that works only nurse 0's evening shift on day 0; it satisfies
all fatigue constraints of the nurse1 model. -/
def fatigueWitVal : Nat × Nat × Nat → Bool := fun t => t == (0, 0, 2)

/-- The two checks applied to a predefined shift (nurse, day, shift) by
src/nurse1.py lines 110-114: the shift type is in the nurse's certification
list, and the (day, shift) pair requires coverage (the `coverage_required`
value is non-zero, Python truthiness). -/
def predefChecksPass (t : Nat × Nat × Nat) : Prop :=
  shiftTypeOf t.2.2 ∈ nurse_certifications t.1 ∧
  coverage_required t.2.1 t.2.2 ≠ 0

instance (t : Nat × Nat × Nat) : Decidable (predefChecksPass t) := by
  unfold predefChecksPass; infer_instance

/- ===================== theorems ===================== -/

/-- Helper for C7: when every predefined shift passes both asserts, the
predefined section succeeds and emits a fix-to-1 constraint per entry. -/
theorem predefined_ok_of_checks : ∀ predef : List (Nat × Nat × Nat),
    (∀ t ∈ predef, predefChecksPass t) →
    ∃ pcs, predefinedConstraints predef = .ok pcs ∧
      ∀ t ∈ predef, NC.sumEq [t] 1 ∈ pcs := by
  intro predef
  induction predef with
  | nil => exact fun _ => ⟨[], rfl, by simp⟩
  | cons t rest ih =>
    intro h
    obtain ⟨n, d, s⟩ := t
    obtain ⟨hc, hcov⟩ := h (n, d, s) (List.mem_cons_self _ _)
    obtain ⟨pcs, hok, hmem⟩ := ih fun u hu => h u (List.mem_cons_of_mem _ hu)
    refine ⟨NC.sumEq [(n, d, s)] 1 :: pcs, ?_, ?_⟩
    · simp [predefinedConstraints, hc, hcov, hok]
    · intro u hu
      rcases List.mem_cons.mp hu with h' | h'
      · rw [h']; exact List.mem_cons_self _ _
      · exact List.mem_cons_of_mem _ (hmem u h')

/-- Helper for C7: when some predefined shift fails a check, the run aborts
with an assertion error (before any solve call). -/
theorem predefined_error_of_failing : ∀ predef : List (Nat × Nat × Nat),
    (∃ t ∈ predef, ¬ predefChecksPass t) →
    ∃ e, predefinedConstraints predef = .error e := by
  intro predef
  induction predef with
  | nil => rintro ⟨t, ht, -⟩; cases ht
  | cons t rest ih =>
    rintro ⟨u, hu, hfail⟩
    obtain ⟨n, d, s⟩ := t
    by_cases hc : shiftTypeOf s ∈ nurse_certifications n
    · by_cases hcov : coverage_required d s = 0
      · refine ⟨"assert coverage_required failed", ?_⟩
        simp [predefinedConstraints, hc, hcov]
      · rcases List.mem_cons.mp hu with h' | h'
        · exact absurd ⟨by rw [h']; exact hc, by rw [h']; exact hcov⟩ hfail
        · obtain ⟨e, he⟩ := ih ⟨u, h', hfail⟩
          refine ⟨e, ?_⟩
          simp [predefinedConstraints, hc, hcov, he]
    · refine ⟨"assert shift_type in nurse_certifications failed", ?_⟩
      simp [predefinedConstraints, hc]

/-- Helper for C6: the fatigue constraint emitted for each nurse `n` and each
non-final day `d` (shift 2 is the only evening shift type, shifts 0 and 1 the
non-evening ones). -/
theorem fatigue_mem (n d : Nat) (hn : n < num_nurses) (hd : d < num_days - 1) :
    NC.condSumEq (n, d, 2) [(n, d + 1, 0), (n, d + 1, 1)] 0 ∈ fatigueConstraints := by
  have hn4 : n < 4 := by simpa [num_nurses] using hn
  have hd2 : d < 2 := by simpa [num_days] using hd
  interval_cases n <;> interval_cases d <;> decide

/-- Helper for C8: once the stop flag is set, no further callback is
delivered, so the count is final. -/
theorem enumerate_stopped (limit : Nat) :
    ∀ (fuel : Nat) (st : PrinterState), st.stopped = true →
      enumerate limit fuel st = st.count
  | 0, _, _ => rfl
  | fuel + 1, st, h => by simp [enumerate, h]

/-- Helper for C8: from an unstopped state below the cap, with enough
solutions remaining to reach the cap, enumeration delivers callbacks until the
count equals the cap exactly. -/
theorem enumerate_reaches_limit (limit : Nat) :
    ∀ (fuel : Nat) (st : PrinterState), st.stopped = false →
      st.count < limit → limit ≤ st.count + fuel →
      enumerate limit fuel st = limit := by
  intro fuel
  induction fuel with
  | zero => intro st _ h2 h3; omega
  | succ k ih =>
    intro st h1 h2 h3
    rw [enumerate, if_neg (by simp [h1])]
    by_cases hstop : limit ≤ st.count + 1
    · rw [enumerate_stopped limit k (callbackStep limit st) (by simp [callbackStep, hstop])]
      simp [callbackStep]
      omega
    · exact ih (callbackStep limit st) (by simp [callbackStep]; omega)
        (by simp [callbackStep]; omega) (by simp [callbackStep]; omega)

/-- Claim C1, counterexample: in the src/nurse1.py model a decision variable
is created for the triple (nurse 0, day 0, shift 2 = "EVE-GEN") although the
shift type is not in nurse 0's certification set, so the validity predicate's
certification condition fails for it; the claim's "no variable is ever created
for a triple that fails the predicate" is false for that model. -/
theorem c1_counterexample :
    ((0, 0, 2) : Nat × Nat × Nat) ∈ nurse1_shift_keys ∧
    (nurse_certifications 0).contains (shiftTypeOf 2) = false := by decide

/-- Claim C1, amended: in the src/index.py model a decision variable exists
for a (nurse, day, shiftType) triple iff `valid_n_d_s` returns true for it; in
the src/nurse1.py model a variable is created for every in-range triple
unconditionally, and triples failing the certification check are instead
forced to zero by explicit constraints. -/
theorem c1_amended :
    (∀ nr ∈ ALL_NURSES, ∀ d ∈ ALL_DAYS, ∀ s ∈ ALL_SHIFT_TYPES,
      ((nr.1, d, s) ∈ index_shift_keys ↔ valid_n_d_s nr.2.1 nr.2.2 d s = true))
    ∧ (∀ n d s : Nat, (n, d, s) ∈ nurse1_shift_keys ↔ (n < 4 ∧ d < 3 ∧ s < 3))
    ∧ (∀ n ∈ List.range num_nurses, ∀ d ∈ List.range num_days,
        ∀ s ∈ List.range num_shifts,
        (nurse_certifications n).contains (shiftTypeOf s) = false →
          NC.sumEq [(n, d, s)] 0 ∈ nurse1_model) := by
  refine ⟨?_, ?_, ?_⟩
  · intro nr h1 d h2 s h3
    fin_cases h1 <;> fin_cases h2 <;> fin_cases h3 <;> decide
  · intro n d s
    simp only [nurse1_shift_keys, num_nurses, num_days, num_shifts, List.mem_flatMap,
      List.mem_map, List.mem_range, Prod.ext_iff]
    constructor
    · rintro ⟨a, ha, b, hb, c, hc, rfl, rfl, rfl⟩
      exact ⟨ha, hb, hc⟩
    · rintro ⟨hn, hd, hs⟩
      exact ⟨n, hn, d, hd, s, hs, rfl, rfl, rfl⟩
  · intro n h1 d h2 s h3
    fin_cases h1 <;> fin_cases h2 <;> fin_cases h3 <;> decide

/-- Claim C1, witness: a valid triple of src/index.py has a variable, and the
uncertified triple (0, 0, 2) of src/nurse1.py has a variable forced to zero. -/
theorem c1_amended_witness :
    ("Alice", 0, "S1") ∈ index_shift_keys ∧
    ((0, 0, 2) : Nat × Nat × Nat) ∈ nurse1_shift_keys ∧
    NC.sumEq [(0, 0, 2)] 0 ∈ nurse1_model := by
  refine ⟨(c1_amended.1 ("Alice", (["S1", "EVE-S1", "S2"], [0, 1, 4])) (by decide)
      0 (by decide) "S1" (by decide)).mpr (by decide),
    (c1_amended.2.1 0 0 2).mpr (by decide),
    c1_amended.2.2 0 (by decide) 0 (by decide) 2 (by decide) (by decide)⟩

/-- Claim C2: the encoded src/nurse1.py model contains the minimum-bound
evening-quota constraint (shown here for nurse 0, whose quota is (1, 2)), but
it contains no upper-bound constraint at all: the maximum bound is guarded by
`if assigned_evening_shifts:` over a list that is never populated, so the
claim's "less than or equal to the nurse's configured maximum" part is never
encoded. -/
theorem c2_upper_bound_never_emitted :
    NC.sumGe [(0, 0, 2), (0, 1, 2), (0, 2, 2)] 1 ∈ nurse1_model ∧
    nurse1_model.all (fun c => !(c.isUpperBound)) = true := by decide

/-- Claim C3, counterexample: in the src/nurse1.py model the pair
(day 0, shift 1 = "ICU") requires no coverage, yet decision variables exist
for it and an explicit zero-sum constraint over all four nurses' variables is
emitted — contradicting the claim that for a non-required pair no variables
exist and the all-false outcome is enforced by omission rather than by an
explicit zero-sum constraint. -/
theorem c3_counterexample :
    coverage_required 0 1 = 0 ∧
    ((0, 0, 1) : Nat × Nat × Nat) ∈ nurse1_shift_keys ∧
    NC.sumEq [(0, 0, 1), (1, 0, 1), (2, 0, 1), (3, 0, 1)] 0 ∈ nurse1_model := by
  decide

/-- Claim C3, amended: in src/index.py, every coverage-required (day,
shiftType) pair yields an exactly-one constraint over the variables of nurses
with a valid triple, every solution of the model sets exactly one variable of
each such group, and a non-required pair has no variables and no coverage
constraint mentioning it; in src/nurse1.py, a required pair yields an
exactly-one constraint over all nurses' variables, while a non-required pair
yields an explicit zero-sum constraint over all nurses' variables (which do
exist). -/
theorem c3_amended :
    (∀ d ∈ ALL_DAYS, ∀ s ∈ ALL_SHIFT_TYPES,
      ((shift_coverage_days s).contains d = true →
        index_valid_group d s ∈ index_coverage_constraints) ∧
      ((shift_coverage_days s).contains d = false →
        index_valid_group d s = [] ∧
        (∀ nr ∈ ALL_NURSES, (nr.1, d, s) ∉ index_shift_keys) ∧
        (index_coverage_constraints.all fun g =>
          g.all fun v => !(v.2.1 == d && v.2.2 == s)) = true))
    ∧ (∀ val, index_model_sat val = true →
        ∀ g ∈ index_coverage_constraints, g.countP val = 1)
    ∧ (∀ d ∈ List.range num_days, ∀ s ∈ List.range num_shifts,
        (coverage_required d s = 1 →
          NC.exactlyOne ((List.range num_nurses).map fun n => (n, d, s)) ∈
            nurse1_model) ∧
        (coverage_required d s ≠ 1 →
          NC.sumEq ((List.range num_nurses).map fun n => (n, d, s)) 0 ∈
            nurse1_model)) := by
  refine ⟨?_, ?_, ?_⟩
  · intro d h1 s h2
    fin_cases h1 <;> fin_cases h2 <;> decide
  · intro val h g hg
    simp only [index_model_sat, Bool.and_eq_true, List.all_eq_true, beq_iff_eq] at h
    exact h.1 g hg
  · intro d h1 s h2
    fin_cases h1 <;> fin_cases h2 <;> decide

/-- Claim C3, witness: the required pair (day 0, "S1") of src/index.py has its
exactly-one group in the model and the example solution fills it exactly once;
in src/nurse1.py the required pair (day 0, shift 0) has an exactly-one
constraint and the non-required pair (day 0, shift 1) an explicit zero-sum
constraint. -/
theorem c3_amended_witness :
    index_valid_group 0 "S1" ∈ index_coverage_constraints ∧
    (index_valid_group 0 "S1").countP exampleVal = 1 ∧
    NC.exactlyOne ((List.range num_nurses).map fun n => (n, 0, 0)) ∈ nurse1_model ∧
    NC.sumEq ((List.range num_nurses).map fun n => (n, 0, 1)) 0 ∈ nurse1_model := by
  have h1 := (c3_amended.1 0 (by decide) "S1" (by decide)).1 (by decide)
  have h2 := c3_amended.2.1 exampleVal (by decide) _ h1
  have h3 := (c3_amended.2.2 0 (by decide) 0 (by decide)).1 (by decide)
  have h4 := (c3_amended.2.2 0 (by decide) 1 (by decide)).2 (by decide)
  exact ⟨h1, h2, h3, h4⟩

/-- Claim C4, counterexample: with nurse 0's evening-quota bounds inverted
(minimum 2 greater than maximum 1), the encoder of src/nurse1.py still
completes successfully — the run does not abort before the solve call, so the
claimed fail-fast behaviour does not exist. -/
theorem c4_counterexample :
    (2 : Nat) > 1 ∧
    (nurse1_encode predefined_shifts [(2, 1), (3, 4), (3, 4), (2, 3)]).isOk = true :=
  ⟨by decide, rfl⟩

/-- Claim C4, amended: src/nurse1.py performs no check on the evening-quota
bounds at all — for every quota configuration, inverted or not, encoding
succeeds and the solver is reached; an inverted bound is not treated as a
configuration defect. -/
theorem c4_amended :
    ∀ quota : List (Nat × Nat),
      (nurse1_encode predefined_shifts quota).isOk = true :=
  fun _ => rfl

/-- Claim C5: evaluation of the reporter of src/index.py at a failing input.
`exampleVal` is a full solution of the index model; on day 1 Alice has no true
shift variable although valid decision variables existed for her (S1 and
EVE-S1 are valid for Alice on day 1), yet the reporter prints "not available"
instead of the claimed "does not work", because its fallback branch re-checks
validity only for the stale last-iterated shift type "S2", which is invalid
for Alice on day 1. -/
theorem c5_stale_branch_eval :
    index_model_sat exampleVal = true ∧
    (ALL_SHIFT_TYPES.any fun s =>
      valid_n_d_s ["S1", "EVE-S1", "S2"] [0, 1, 4] 1 s) = true ∧
    (ALL_SHIFT_TYPES.all fun s => !(exampleVal ("Alice", 1, s))) = true ∧
    reportClassification ["S1", "EVE-S1", "S2"] [0, 1, 4] "Alice" 1 exampleVal
      = "not available" := by decide

/-- Claim C6: for every nurse and every day except the last, the src/nurse1.py
model contains the conditional constraint "if the evening-shift variable
(shift 2) on day d is true, the sum of the non-evening variables (shifts 0 and
1) on day d+1 equals zero"; consequently any valuation satisfying the fatigue
constraints has no nurse with a true evening variable on day d together with a
true non-evening variable on day d+1. -/
theorem c6_fatigue :
    (∀ n < num_nurses, ∀ d < num_days - 1,
      NC.condSumEq (n, d, 2) [(n, d + 1, 0), (n, d + 1, 1)] 0 ∈ nurse1_model)
    ∧ (∀ val : Nat × Nat × Nat → Bool,
        (∀ c ∈ fatigueConstraints, ncSat val c = true) →
        ∀ n < num_nurses, ∀ d < num_days - 1,
          val (n, d, 2) = true →
            val (n, d + 1, 0) = false ∧ val (n, d + 1, 1) = false) := by
  constructor
  · intro n hn d hd
    have hn4 : n < 4 := by simpa [num_nurses] using hn
    have hd2 : d < 2 := by simpa [num_days] using hd
    interval_cases n <;> interval_cases d <;> decide
  · intro val h n hn d hd hv
    have hc := h _ (fatigue_mem n d hn hd)
    simp only [ncSat, hv, Bool.not_true, Bool.false_or, beq_iff_eq,
      List.countP_cons, List.countP_nil] at hc
    cases h0 : val (n, d + 1, 0) <;> cases h1 : val (n, d + 1, 1) <;>
      simp [h0, h1] at hc ⊢

/-- Claim C6, witness: the constraint for nurse 0, day 0 is in the model, and
the valuation working only nurse 0's evening shift on day 0 satisfies the
fatigue constraints and works no non-evening shift on day 1. -/
theorem c6_witness :
    NC.condSumEq (0, 0, 2) [(0, 1, 0), (0, 1, 1)] 0 ∈ nurse1_model ∧
    (fatigueWitVal (0, 1, 0) = false ∧ fatigueWitVal (0, 1, 1) = false) := by
  exact ⟨c6_fatigue.1 0 (by decide) 0 (by decide),
    c6_fatigue.2 fatigueWitVal (by decide) 0 (by decide) 0 (by decide) (by decide)⟩

/-- Claim C7: if every configured predefined shift passes both checks
(certification-valid and coverage-required), encoding succeeds and each such
triple's variable is hard-fixed to 1 in the emitted model; if any predefined
shift fails a check, encoding aborts with an assertion error before any solve
call. -/
theorem c7_predefined (predef : List (Nat × Nat × Nat)) (quota : List (Nat × Nat)) :
    ((∀ t ∈ predef, predefChecksPass t) →
      ∃ cs, nurse1_encode predef quota = .ok cs ∧
        ∀ t ∈ predef, NC.sumEq [t] 1 ∈ cs)
    ∧ ((∃ t ∈ predef, ¬ predefChecksPass t) →
      ∃ e, nurse1_encode predef quota = .error e) := by
  constructor
  · intro h
    obtain ⟨pcs, hok, hmem⟩ := predefined_ok_of_checks predef h
    refine ⟨coverageConstraints ++ oneShiftPerDayConstraints ++
      certificationConstraints ++ pcs ++ fatigueConstraints ++
      eveningQuotaConstraints quota, ?_, ?_⟩
    · simp [nurse1_encode, hok]
    · intro t ht
      simp only [List.mem_append]
      exact Or.inl (Or.inl (Or.inr (hmem t ht)))
  · intro h
    obtain ⟨e, he⟩ := predefined_error_of_failing predef h
    refine ⟨e, ?_⟩
    simp [nurse1_encode, he]

/-- Claim C7, witness: the two configured predefined shifts of src/nurse1.py
pass both checks and are fixed to 1 in the emitted model; the hypothetical
predefined shift (nurse 0, day 0, shift 2 = "EVE-GEN"), whose shift type is
not in nurse 0's certification set, is rejected before any solve call. -/
theorem c7_witness :
    (∃ cs, nurse1_encode predefined_shifts evening_shift_allocation_data = .ok cs ∧
      ∀ t ∈ predefined_shifts, NC.sumEq [t] 1 ∈ cs)
    ∧ (∃ e, nurse1_encode [(0, 0, 2)] evening_shift_allocation_data = .error e) :=
  ⟨(c7_predefined predefined_shifts evening_shift_allocation_data).1 (by decide),
   (c7_predefined [(0, 0, 2)] evening_shift_allocation_data).2
     ⟨(0, 0, 2), by decide, by decide⟩⟩

/-- Claim C8: each callback increments the counter exactly once; the stop flag
is set exactly when the new count reaches the configured cap; and an
enumeration with cap `limit`, when at least `limit` solutions exist, reports
exactly `limit` solutions. -/
theorem c8_enumeration_cap (limit solutions : Nat)
    (hpos : 1 ≤ limit) (havail : limit ≤ solutions) :
    (∀ st, (callbackStep limit st).count = st.count + 1) ∧
    (∀ st, (callbackStep limit st).stopped = decide (limit ≤ st.count + 1)) ∧
    runEnumeration limit solutions = limit :=
  ⟨fun _ => rfl, fun _ => rfl,
   enumerate_reaches_limit limit solutions _ rfl (by simp; omega) (by simp; omega)⟩

/-- Claim C8, witness: with the configured cap of 5 and 7 available solutions,
exactly 5 solutions are reported. -/
theorem c8_witness : runEnumeration 5 7 = 5 :=
  (c8_enumeration_cap 5 7 (by decide) (by decide)).2.2

/-- Claim C9: `valid_n_d_s` returns true iff the shift needs coverage on the
day, the shift type is in the nurse's certification set, and the day is in the
nurse's availability set (purity is inherent: it is a function of its
arguments alone). -/
theorem c9_validity_predicate (nurse_certs : List String) (nurse_av : List Nat)
    (d : Nat) (shift_name : String) :
    valid_n_d_s nurse_certs nurse_av d shift_name = true ↔
      (d ∈ shift_coverage_days shift_name ∧ shift_name ∈ nurse_certs ∧
       d ∈ nurse_av) := by
  simp [valid_n_d_s]

/-- Claim C10: the constraint set emitted for the fixed configuration of
src/nurse1.py is unsatisfiable — every valuation violates some emitted
constraint (nurse 0's evening variables are forced to zero by the
certification constraints, while the evening-quota constraint demands their
sum be at least 1) — and an enumeration with no available solutions delivers
zero callbacks. -/
theorem c10_infeasible :
    (∀ val : Nat × Nat × Nat → Bool, ∃ c ∈ nurse1_model, ncSat val c = false) ∧
    runEnumeration 5 0 = 0 := by
  refine ⟨?_, rfl⟩
  intro val
  by_cases h0 : val (0, 0, 2) = true
  · exact ⟨NC.sumEq [(0, 0, 2)] 0, by decide,
      by simp [ncSat, List.countP_cons, List.countP_nil, h0]⟩
  · by_cases h1 : val (0, 1, 2) = true
    · exact ⟨NC.sumEq [(0, 1, 2)] 0, by decide,
        by simp [ncSat, List.countP_cons, List.countP_nil, h1]⟩
    · by_cases h2 : val (0, 2, 2) = true
      · exact ⟨NC.sumEq [(0, 2, 2)] 0, by decide,
          by simp [ncSat, List.countP_cons, List.countP_nil, h2]⟩
      · exact ⟨NC.sumGe [(0, 0, 2), (0, 1, 2), (0, 2, 2)] 1, by decide,
          by simp [ncSat, List.countP_cons, List.countP_nil, h0, h1, h2]; rfl⟩
